import Mathlib

/-!
Verification of `sez_to_ecef.py`, a command-line utility that converts a
topocentric SEZ (South-East-Zenith) vector, given relative to a geodetic
origin, into an ECEF (Earth-Centered-Earth-Fixed) Cartesian vector.

The numeric core (lines 65-106 of the script) is embedded over `ℝ`:
Python floats are modelled by exact real arithmetic, so floating-point
rounding is ignored but every formula is transcribed verbatim.
The script-level behaviour (argument parsing, the error exits, and the
propagation of the IEEE special values `nan`/`inf` that Python's
`float()` accepts) is embedded separately further below via the `PyF`
type and `runScript`.
-/

noncomputable section

namespace SezToEcef

/-- Script constant `R_E_KM = 6378.1363`, the Earth equatorial radius in km. -/
def R_E_KM : ℝ := 6378.1363

/-- Script constant `E_E = 0.081819221456`, the ellipsoid eccentricity. -/
def E_E : ℝ := 0.081819221456

/-- Embeds `calc_denom(ecc, lat_rad)`:
`math.sqrt(1.0 - (ecc**2.0) * (math.sin(lat_rad))**2)`. -/
def calc_denom (ecc lat_rad : ℝ) : ℝ :=
  Real.sqrt (1.0 - ecc ^ 2 * Real.sin lat_rad ^ 2)

/-- The rotation matrix `Ry_lat` built at lines 87-88 of the script. -/
def Ry_lat (o_lat_rad : ℝ) : Matrix (Fin 3) (Fin 3) ℝ :=
  !![Real.sin o_lat_rad, 0, Real.cos o_lat_rad;
     0, 1, 0;
     -Real.cos o_lat_rad, 0, Real.sin o_lat_rad]

/-- The rotation matrix `Rz_long` built at lines 89-90 of the script. -/
def Rz_long (o_long_rad : ℝ) : Matrix (Fin 3) (Fin 3) ℝ :=
  !![Real.cos o_long_rad, -Real.sin o_long_rad, 0;
     Real.sin o_long_rad, Real.cos o_long_rad, 0;
     0, 0, 1]

/-- The origin ECEF position `r` computed at lines 65-75 of the script
from the geodetic origin (latitude and longitude in degrees, height in km). -/
def originEcef (o_lat_deg o_lon_deg o_hae_km : ℝ) : Fin 3 → ℝ :=
  let o_lat_rad := o_lat_deg * Real.pi / 180.0
  let o_long_rad := o_lon_deg * Real.pi / 180.0
  let denominator := calc_denom E_E o_lat_rad
  let c_E := R_E_KM / denominator
  let s_E := R_E_KM * (1.0 - E_E * E_E) / denominator
  let r_x_km := (c_E + o_hae_km) * Real.cos o_lat_rad * Real.cos o_long_rad
  let r_y_km := (c_E + o_hae_km) * Real.cos o_lat_rad * Real.sin o_long_rad
  let r_z_km := (s_E + o_hae_km) * Real.sin o_lat_rad
  ![r_x_km, r_y_km, r_z_km]

/-- The whole numeric pipeline of the script (lines 65-106): origin
position, the two rotations `rot_2 = Rz_long · (Ry_lat · r_SEZ)`, and the
final translation `ecef = r + rot_2`.  Returns the printed triple
`(ecef_x_km, ecef_y_km, ecef_z_km)`. -/
def sezToEcef (o_lat_deg o_lon_deg o_hae_km s_km e_km z_km : ℝ) : Fin 3 → ℝ :=
  let o_lat_rad := o_lat_deg * Real.pi / 180.0
  let o_long_rad := o_lon_deg * Real.pi / 180.0
  let r := originEcef o_lat_deg o_lon_deg o_hae_km
  let r_SEZ : Fin 3 → ℝ := ![s_km, e_km, z_km]
  let rot_1 := (Ry_lat o_lat_rad).mulVec r_SEZ
  let rot_2 := (Rz_long o_long_rad).mulVec rot_1
  ![r 0 + rot_2 0, r 1 + rot_2 1, r 2 + rot_2 2]

/-- The reference pipeline exactly as the specification words it
(section 4.1 of the spec): degrees to radians by `deg * π/180`,
`denom = sqrt(1 - e² sin² lat)`, `C_E = R_E/denom`,
`S_E = R_E (1-e²)/denom`, origin position
`((C_E+h) cos lat cos lon, (C_E+h) cos lat sin lon, (S_E+h) sin lat)`,
`rotated = Rz · (Ry · sez)`, and `ecef = origin + rotated`.
Written from the spec text, to be compared with `sezToEcef`. -/
def specEcef (lat_deg lon_deg h s e z : ℝ) : Fin 3 → ℝ :=
  let lat := lat_deg * Real.pi / 180
  let lon := lon_deg * Real.pi / 180
  let denom := Real.sqrt (1 - E_E ^ 2 * Real.sin lat ^ 2)
  let cE := R_E_KM / denom
  let sE := R_E_KM * (1 - E_E ^ 2) / denom
  let r : Fin 3 → ℝ :=
    ![(cE + h) * Real.cos lat * Real.cos lon,
      (cE + h) * Real.cos lat * Real.sin lon,
      (sE + h) * Real.sin lat]
  let rotated := (Rz_long lon).mulVec ((Ry_lat lat).mulVec ![s, e, z])
  fun i => r i + rotated i

/-- A Python `float` value as the script sees it: a finite value (modelled
by an exact real, ignoring rounding and overflow), `inf`, `-inf`, or `nan`.
Python's `float()` constructor accepts the strings `nan`, `inf`, `-inf`,
`infinity` (case-insensitively), so these values can enter the pipeline. -/
inductive PyF where
  | fin (x : ℝ) : PyF
  | inf : PyF
  | ninf : PyF
  | nan : PyF

namespace PyF

/-- IEEE-754 addition on `PyF` (finite part exact over `ℝ`). -/
def add : PyF → PyF → PyF
  | nan, _ => nan
  | _, nan => nan
  | fin a, fin b => fin (a + b)
  | inf, fin _ => inf
  | fin _, inf => inf
  | inf, inf => inf
  | inf, ninf => nan
  | ninf, inf => nan
  | ninf, ninf => ninf
  | ninf, fin _ => ninf
  | fin _, ninf => ninf

/-- IEEE-754 subtraction on `PyF` (finite part exact over `ℝ`). -/
def sub : PyF → PyF → PyF
  | nan, _ => nan
  | _, nan => nan
  | fin a, fin b => fin (a - b)
  | inf, fin _ => inf
  | fin _, inf => ninf
  | inf, inf => nan
  | inf, ninf => inf
  | ninf, inf => ninf
  | ninf, ninf => nan
  | ninf, fin _ => ninf
  | fin _, ninf => inf

/-- IEEE-754 negation on `PyF`. -/
def neg : PyF → PyF
  | fin a => fin (-a)
  | inf => ninf
  | ninf => inf
  | nan => nan

/-- IEEE-754 multiplication on `PyF` (finite part exact over `ℝ`). -/
def mul : PyF → PyF → PyF
  | nan, _ => nan
  | _, nan => nan
  | fin a, fin b => fin (a * b)
  | inf, inf => inf
  | inf, ninf => ninf
  | ninf, inf => ninf
  | ninf, ninf => inf
  | inf, fin b => if b = 0 then nan else if 0 < b then inf else ninf
  | fin a, inf => if a = 0 then nan else if 0 < a then inf else ninf
  | ninf, fin b => if b = 0 then nan else if 0 < b then ninf else inf
  | fin a, ninf => if a = 0 then nan else if 0 < a then ninf else inf

/-- IEEE-754 division on `PyF`.  Python raises `ZeroDivisionError` for a
finite numerator over `fin 0`; the script only ever divides by `180.0` and
by the ellipsoid denominator, so that branch is never exercised and is
modelled by Lean's total `/` (which sends it to `fin (a / 0) = fin 0`). -/
def div : PyF → PyF → PyF
  | nan, _ => nan
  | _, nan => nan
  | fin a, fin b => fin (a / b)
  | inf, inf => nan
  | inf, ninf => nan
  | ninf, inf => nan
  | ninf, ninf => nan
  | inf, fin b => if 0 ≤ b then inf else ninf
  | ninf, fin b => if 0 ≤ b then ninf else inf
  | fin _, inf => fin 0
  | fin _, ninf => fin 0

/-- Python `x ** 2` / `x ** 2.0` on `PyF` values. -/
def sq : PyF → PyF
  | fin a => fin (a ^ 2)
  | inf => inf
  | ninf => inf
  | nan => nan

/-- Python `math.sin` on `PyF`: `nan` maps to `nan`; on `±inf` Python
raises `ValueError`, a branch never exercised by the properties below,
modelled as `nan`. -/
def sin : PyF → PyF
  | fin a => fin (Real.sin a)
  | nan => nan
  | inf => nan
  | ninf => nan

/-- Python `math.cos` on `PyF`: same conventions as `sin`. -/
def cos : PyF → PyF
  | fin a => fin (Real.cos a)
  | nan => nan
  | inf => nan
  | ninf => nan

/-- Python `math.sqrt` on `PyF`: `nan` maps to `nan`; on negative finite
arguments and `-inf` Python raises `ValueError`, branches never exercised
by the properties below. -/
def sqrt : PyF → PyF
  | fin a => fin (Real.sqrt a)
  | nan => nan
  | inf => inf
  | ninf => nan

/-- Whether a `PyF` value is finite (neither `nan` nor `±inf`). -/
def isFinite : PyF → Bool
  | fin _ => true
  | _ => false

end PyF

/-- The helper `calc_denom` (lines 37-38 of the script) evaluated on Python floats:
`math.sqrt(1.0 - (ecc**2.0) * (math.sin(lat_rad))**2)`. -/
def pyCalcDenom (ecc lat_rad : PyF) : PyF :=
  PyF.sqrt (PyF.sub (PyF.fin 1.0) (PyF.mul (PyF.sq ecc) (PyF.sq (PyF.sin lat_rad))))

/-- The numeric pipeline of lines 65-106, evaluated on Python floats,
returned as the printed triple `(ecef_x_km, ecef_y_km, ecef_z_km)`.
The two numpy matrix-vector products are written out entrywise
(`row · column = a*s + b*e + c*z`, summed left to right). -/
def pyPipeline (o_lat_deg o_long_deg o_hae_km s_km e_km z_km : PyF) : PyF × PyF × PyF :=
  let o_lat_rad := PyF.div (PyF.mul o_lat_deg (PyF.fin Real.pi)) (PyF.fin 180.0)
  let o_long_rad := PyF.div (PyF.mul o_long_deg (PyF.fin Real.pi)) (PyF.fin 180.0)
  let denominator := pyCalcDenom (PyF.fin E_E) o_lat_rad
  let c_E := PyF.div (PyF.fin R_E_KM) denominator
  let s_E := PyF.div
    (PyF.mul (PyF.fin R_E_KM) (PyF.sub (PyF.fin 1.0) (PyF.mul (PyF.fin E_E) (PyF.fin E_E))))
    denominator
  let r_x_km := PyF.mul (PyF.mul (PyF.add c_E o_hae_km) (PyF.cos o_lat_rad)) (PyF.cos o_long_rad)
  let r_y_km := PyF.mul (PyF.mul (PyF.add c_E o_hae_km) (PyF.cos o_lat_rad)) (PyF.sin o_long_rad)
  let r_z_km := PyF.mul (PyF.add s_E o_hae_km) (PyF.sin o_lat_rad)
  let rot1_0 := PyF.add (PyF.add (PyF.mul (PyF.sin o_lat_rad) s_km)
    (PyF.mul (PyF.fin 0) e_km)) (PyF.mul (PyF.cos o_lat_rad) z_km)
  let rot1_1 := PyF.add (PyF.add (PyF.mul (PyF.fin 0) s_km)
    (PyF.mul (PyF.fin 1) e_km)) (PyF.mul (PyF.fin 0) z_km)
  let rot1_2 := PyF.add (PyF.add (PyF.mul (PyF.neg (PyF.cos o_lat_rad)) s_km)
    (PyF.mul (PyF.fin 0) e_km)) (PyF.mul (PyF.sin o_lat_rad) z_km)
  let rot2_0 := PyF.add (PyF.add (PyF.mul (PyF.cos o_long_rad) rot1_0)
    (PyF.mul (PyF.neg (PyF.sin o_long_rad)) rot1_1)) (PyF.mul (PyF.fin 0) rot1_2)
  let rot2_1 := PyF.add (PyF.add (PyF.mul (PyF.sin o_long_rad) rot1_0)
    (PyF.mul (PyF.cos o_long_rad) rot1_1)) (PyF.mul (PyF.fin 0) rot1_2)
  let rot2_2 := PyF.add (PyF.add (PyF.mul (PyF.fin 0) rot1_0)
    (PyF.mul (PyF.fin 0) rot1_1)) (PyF.mul (PyF.fin 1) rot1_2)
  (PyF.add r_x_km rot2_0, PyF.add r_y_km rot2_1, PyF.add r_z_km rot2_2)

/-- Numeric value of a list of decimal digit characters. -/
def digitsToNat (ds : List Char) : ℕ :=
  ds.foldl (fun a c => 10 * a + (c.toNat - 48)) 0

/-- Exponent suffix of a Python float literal: empty, or `e`/`E` followed
by an optional sign and at least one digit, consuming the whole rest. -/
def parseExpPart (cs : List Char) : Option ℤ :=
  match cs with
  | [] => some 0
  | c :: rest =>
    if c = 'e' ∨ c = 'E' then
      match rest with
      | '+' :: ds =>
        if ds ≠ [] ∧ ds.all Char.isDigit then some ((digitsToNat ds : ℤ)) else none
      | '-' :: ds =>
        if ds ≠ [] ∧ ds.all Char.isDigit then some (-(digitsToNat ds : ℤ)) else none
      | ds =>
        if ds ≠ [] ∧ ds.all Char.isDigit then some ((digitsToNat ds : ℤ)) else none
    else none

/-- Unsigned numeric part of a Python float literal: digits with an
optional decimal point (at least one digit overall) and an optional
exponent.  Returns its exact real value.  (Underscore digit separators,
which CPython also accepts, are not modelled.) -/
def parseMagnitude (cs : List Char) : Option ℝ :=
  let ip := cs.takeWhile Char.isDigit
  let r1 := cs.dropWhile Char.isDigit
  match r1 with
  | '.' :: r2 =>
    let fp := r2.takeWhile Char.isDigit
    let r3 := r2.dropWhile Char.isDigit
    if ip = [] ∧ fp = [] then none
    else (parseExpPart r3).map fun e =>
      ((digitsToNat ip : ℝ) + (digitsToNat fp : ℝ) / 10 ^ fp.length) * (10 : ℝ) ^ e
  | _ =>
    if ip = [] then none
    else (parseExpPart r1).map fun e => (digitsToNat ip : ℝ) * (10 : ℝ) ^ e

/-- Case-insensitive comparison of a character list with a keyword. -/
def lowerEq (cs : List Char) (s : String) : Bool :=
  cs.map Char.toLower == s.toList

/-- Body of a Python float literal after the optional sign: `inf`,
`infinity` or `nan` (case-insensitive), or a numeric magnitude. -/
def parseSignedBody (neg : Bool) (cs : List Char) : Option PyF :=
  if lowerEq cs "inf" || lowerEq cs "infinity" then
    some (if neg then PyF.ninf else PyF.inf)
  else if lowerEq cs "nan" then some PyF.nan
  else (parseMagnitude cs).map fun x => PyF.fin (if neg then -x else x)

/-- Python's `float(s)` on a string: strip surrounding whitespace, read an
optional sign, then the body.  Returns `none` when `float` would raise
`ValueError`. -/
def pyFloat? (s : String) : Option PyF :=
  let cs := ((s.toList.dropWhile Char.isWhitespace).reverse.dropWhile
    Char.isWhitespace).reverse
  match cs with
  | '+' :: rest => parseSignedBody false rest
  | '-' :: rest => parseSignedBody true rest
  | rest => parseSignedBody false rest

/-- Observable outcome of one run of the script: either it prints a single
message and terminates via Python's clean `exit()` (no numeric output and
no crash signal), or it prints the three ECEF components. -/
inductive ScriptOut where
  | exitWithMessage (msg : String) : ScriptOut
  | results (x y z : PyF) : ScriptOut

/-- The usage line printed at line 61 of the script. -/
def usageLine : String :=
  "python3 sez_to_ecef.py o_lat_deg o_lon_deg o_hae_km s_km e_km z_km"

/-- The parse-error message printed at line 58 of the script. -/
def parseErrorLine : String :=
  "Error: lat_deg, long_deg and hae_km must be numeric."

/-- The single `try` block of lines 50-56: convert `sys.argv[1]` through
`sys.argv[6]` with `float`, stopping at the first failure (`ValueError`). -/
def parseArgs (argv : List String) : Option (PyF × PyF × PyF × PyF × PyF × PyF) :=
  match pyFloat? (argv.getD 1 "") with
  | none => none
  | some a =>
    match pyFloat? (argv.getD 2 "") with
    | none => none
    | some b =>
      match pyFloat? (argv.getD 3 "") with
      | none => none
      | some c =>
        match pyFloat? (argv.getD 4 "") with
        | none => none
        | some d =>
          match pyFloat? (argv.getD 5 "") with
          | none => none
          | some e =>
            match pyFloat? (argv.getD 6 "") with
            | none => none
            | some f => some (a, b, c, d, e, f)

/-- One run of the script on a full argument vector (`argv.head` is the
script name, as in `sys.argv`): the `len(sys.argv) == 7` check of line 49,
the shared `try`/`except ValueError` of lines 50-59, the `else` branch of
lines 60-62, and on success the numeric pipeline and the three printed
components. -/
def runScript (argv : List String) : ScriptOut :=
  if argv.length = 7 then
    match parseArgs argv with
    | none => ScriptOut.exitWithMessage parseErrorLine
    | some (a, b, c, d, e, f) =>
      match pyPipeline a b c d e f with
      | (x, y, z) => ScriptOut.results x y z
  else ScriptOut.exitWithMessage usageLine

/-! ## Helper lemmas -/

lemma sezToEcef_zero_sez (lat lon h : ℝ) :
    sezToEcef lat lon h 0 0 0 = originEcef lat lon h := by
  funext i
  fin_cases i <;>
    simp [sezToEcef, Ry_lat, Rz_long, Matrix.mulVec, Matrix.dotProduct,
      Fin.sum_univ_three]

lemma originEcef_equator : originEcef 0 0 0 = ![(6378.1363 : ℝ), 0, 0] := by
  funext i
  fin_cases i <;>
    norm_num [originEcef, calc_denom, R_E_KM, E_E, Real.sqrt_one]

lemma calc_denom_pos (lat_rad : ℝ) : 0 < calc_denom E_E lat_rad := by
  have h1 : Real.sin lat_rad ^ 2 ≤ 1 := Real.sin_sq_le_one lat_rad
  have h2 : 0 ≤ Real.sin lat_rad ^ 2 := sq_nonneg _
  have h3 : E_E ^ 2 < 1 := by norm_num [E_E]
  have h4 : (0 : ℝ) ≤ E_E ^ 2 := by positivity
  simp only [calc_denom]
  apply Real.sqrt_pos.mpr
  nlinarith

/-! ## Theorems for the claims -/

/-- C2: for every finite latitude the ellipsoid denominator
`sqrt(1 - e² sin² lat)` is strictly positive (the eccentricity constant
lies in `[0,1)`), so the divisions by it are well-defined, and on
all-finite parsed inputs the numeric pipeline stays inside the finite
floats: it reaches no error branch and all three printed components are
finite. -/
theorem denominator_pos_and_outputs_finite :
    (0 ≤ E_E ∧ E_E < 1) ∧
    (∀ lat_rad : ℝ, 0 < calc_denom E_E lat_rad ∧ calc_denom E_E lat_rad ≠ 0) ∧
    (∀ a b c d e f : ℝ, ∃ x y z : ℝ,
      pyPipeline (PyF.fin a) (PyF.fin b) (PyF.fin c)
        (PyF.fin d) (PyF.fin e) (PyF.fin f) =
      (PyF.fin x, PyF.fin y, PyF.fin z)) := by
  refine ⟨by norm_num [E_E], fun lat_rad => ?_, fun a b c d e f => ⟨_, _, _, rfl⟩⟩
  exact ⟨calc_denom_pos lat_rad, ne_of_gt (calc_denom_pos lat_rad)⟩

/-- C3: converting the SEZ vector `(0,0,0)` at any origin returns exactly
the origin ECEF position `r`: the rotated zero vector is zero and the
translation leaves `r` unchanged, with exact equality. -/
theorem sez_zero_gives_origin (lat lon h : ℝ) :
    sezToEcef lat lon h 0 0 0 = originEcef lat lon h :=
  sezToEcef_zero_sez lat lon h

/-- C4: at origin latitude 0°, longitude 0°, height 0 km with SEZ
`(0,0,0)`, the printed ECEF vector is `(6378.1363, 0, 0)` km — the
equatorial radius on the x-axis with zero y and z (exactly, in the real
model, hence in particular within any approximation tolerance). -/
theorem equator_origin_value :
    sezToEcef 0 0 0 0 0 0 = ![(6378.1363 : ℝ), 0, 0] := by
  rw [sezToEcef_zero_sez, originEcef_equator]

/-- C1: for every parsed sextuple of real inputs, the printed ECEF triple
computed by the script equals the reference pipeline described by the
specification (degrees-to-radians, ellipsoid origin position, rotation by
`Ry(lat)` then `Rz(lon)`, then element-wise translation). -/
theorem sezToEcef_matches_spec (lat lon h s e z : ℝ) :
    sezToEcef lat lon h s e z = specEcef lat lon h s e z := by
  have h1 : (1.0 : ℝ) = 1 := by norm_num
  have h180 : (180.0 : ℝ) = 180 := by norm_num
  funext i
  simp only [sezToEcef, specEcef, originEcef, calc_denom, h1, h180, pow_two]
  fin_cases i <;> simp

lemma Ry_lat_transpose (lat : ℝ) :
    Matrix.transpose (Ry_lat lat) =
      !![Real.sin lat, 0, -Real.cos lat;
         0, 1, 0;
         Real.cos lat, 0, Real.sin lat] := by
  ext i j
  fin_cases i <;> fin_cases j <;> rfl

lemma Rz_long_transpose (lon : ℝ) :
    Matrix.transpose (Rz_long lon) =
      !![Real.cos lon, Real.sin lon, 0;
         -Real.sin lon, Real.cos lon, 0;
         0, 0, 1] := by
  ext i j
  fin_cases i <;> fin_cases j <;> rfl

lemma Ry_lat_orth (lat : ℝ) : Matrix.transpose (Ry_lat lat) * Ry_lat lat = 1 := by
  have hsc := Real.sin_sq_add_cos_sq lat
  rw [Ry_lat_transpose]
  simp only [Ry_lat, Matrix.mul_fin_three, Matrix.one_fin_three]
  ext i j
  fin_cases i <;> fin_cases j <;> simp [Matrix.vecHead, Matrix.vecTail] <;> nlinarith [hsc]

lemma Ry_lat_orth' (lat : ℝ) : Ry_lat lat * Matrix.transpose (Ry_lat lat) = 1 := by
  have hsc := Real.sin_sq_add_cos_sq lat
  rw [Ry_lat_transpose]
  simp only [Ry_lat, Matrix.mul_fin_three, Matrix.one_fin_three]
  ext i j
  fin_cases i <;> fin_cases j <;> simp [Matrix.vecHead, Matrix.vecTail] <;> nlinarith [hsc]

lemma Rz_long_orth (lon : ℝ) : Matrix.transpose (Rz_long lon) * Rz_long lon = 1 := by
  have hsc := Real.sin_sq_add_cos_sq lon
  rw [Rz_long_transpose]
  simp only [Rz_long, Matrix.mul_fin_three, Matrix.one_fin_three]
  ext i j
  fin_cases i <;> fin_cases j <;> simp [Matrix.vecHead, Matrix.vecTail] <;> nlinarith [hsc]

lemma Rz_long_orth' (lon : ℝ) : Rz_long lon * Matrix.transpose (Rz_long lon) = 1 := by
  have hsc := Real.sin_sq_add_cos_sq lon
  rw [Rz_long_transpose]
  simp only [Rz_long, Matrix.mul_fin_three, Matrix.one_fin_three]
  ext i j
  fin_cases i <;> fin_cases j <;> simp [Matrix.vecHead, Matrix.vecTail] <;> nlinarith [hsc]

/-- C5: the two rotation matrices built by the script are orthogonal
(transpose equals inverse on both sides), and applying either rotation and
then its transpose to any SEZ vector returns the vector exactly (hence in
particular within any floating-point tolerance such as `1e-9` km). -/
theorem rotation_matrices_orthogonal (lat lon : ℝ) (v : Fin 3 → ℝ) :
    Matrix.transpose (Ry_lat lat) * Ry_lat lat = 1 ∧ Ry_lat lat * Matrix.transpose (Ry_lat lat) = 1 ∧
    Matrix.transpose (Rz_long lon) * Rz_long lon = 1 ∧ Rz_long lon * Matrix.transpose (Rz_long lon) = 1 ∧
    (Matrix.transpose (Ry_lat lat)).mulVec ((Ry_lat lat).mulVec v) = v ∧
    (Matrix.transpose (Rz_long lon)).mulVec ((Rz_long lon).mulVec v) = v := by
  refine ⟨Ry_lat_orth lat, Ry_lat_orth' lat, Rz_long_orth lon, Rz_long_orth' lon, ?_, ?_⟩
  · rw [Matrix.mulVec_mulVec, Ry_lat_orth, Matrix.one_mulVec]
  · rw [Matrix.mulVec_mulVec, Rz_long_orth, Matrix.one_mulVec]

lemma parseArgs_eq_none (argv : List String)
    (h : pyFloat? (argv.getD 1 "") = none ∨ pyFloat? (argv.getD 2 "") = none ∨
      pyFloat? (argv.getD 3 "") = none ∨ pyFloat? (argv.getD 4 "") = none ∨
      pyFloat? (argv.getD 5 "") = none ∨ pyFloat? (argv.getD 6 "") = none) :
    parseArgs argv = none := by
  unfold parseArgs
  rcases h1 : pyFloat? (argv.getD 1 "") with _ | a
  · rfl
  rcases h2 : pyFloat? (argv.getD 2 "") with _ | b
  · rfl
  rcases h3 : pyFloat? (argv.getD 3 "") with _ | c
  · rfl
  rcases h4 : pyFloat? (argv.getD 4 "") with _ | d
  · rfl
  rcases h5 : pyFloat? (argv.getD 5 "") with _ | e
  · rfl
  rcases h6 : pyFloat? (argv.getD 6 "") with _ | f
  · rfl
  rw [h1, h2, h3, h4, h5, h6] at h
  simp at h

/-- C6: the script is deterministic — two runs on identical argument
vectors produce identical outputs, the transformation being a pure
function of its inputs with no other effect than the output value. -/
theorem script_deterministic (argv1 argv2 : List String) (h : argv1 = argv2) :
    runScript argv1 = runScript argv2 := by rw [h]

/-- Witness for C6 at a concrete argument vector. -/
theorem script_deterministic_witness :
    runScript ["sez_to_ecef.py", "1", "2", "3", "4", "5", "6"] =
      runScript ["sez_to_ecef.py", "1", "2", "3", "4", "5", "6"] :=
  script_deterministic _ _ rfl

/-- C7: whenever the command-line argument count is not exactly six
(`len(sys.argv) ≠ 7`, counting the script name), the script prints the
usage line and terminates cleanly, with no computation and no numeric
output. -/
theorem wrong_arg_count_usage (argv : List String) (h : argv.length ≠ 7) :
    runScript argv = ScriptOut.exitWithMessage usageLine := by
  simp [runScript, h]

/-- Witness for C7: five user arguments (six `sys.argv` entries). -/
theorem wrong_arg_count_usage_witness :
    ["sez_to_ecef.py", "1", "2", "3", "4", "5"].length ≠ 7 ∧
    runScript ["sez_to_ecef.py", "1", "2", "3", "4", "5"] =
      ScriptOut.exitWithMessage usageLine :=
  ⟨by decide, wrong_arg_count_usage _ (by decide)⟩

/-- C8: with exactly six user arguments, if any of them fails to convert
to a float, the script prints the parse-error message and terminates
cleanly the same way as a usage error, with no numeric output. -/
theorem parse_failure_error_exit (argv : List String) (h7 : argv.length = 7)
    (h : pyFloat? (argv.getD 1 "") = none ∨ pyFloat? (argv.getD 2 "") = none ∨
      pyFloat? (argv.getD 3 "") = none ∨ pyFloat? (argv.getD 4 "") = none ∨
      pyFloat? (argv.getD 5 "") = none ∨ pyFloat? (argv.getD 6 "") = none) :
    runScript argv = ScriptOut.exitWithMessage parseErrorLine := by
  simp [runScript, h7, parseArgs_eq_none argv h]

/-- Witness for C8: a non-numeric latitude argument. -/
theorem parse_failure_error_exit_witness :
    runScript ["sez_to_ecef.py", "abc", "0", "0", "0", "0", "0"] =
      ScriptOut.exitWithMessage parseErrorLine :=
  parse_failure_error_exit _ (by decide) (Or.inl rfl)

/-- C9: all six positional arguments go through the one shared
`try`/`except ValueError`, so a non-numeric value in any of the three SEZ
positions (`s_km`, `e_km`, `z_km`) triggers the same single message
`Error: lat_deg, long_deg and hae_km must be numeric.` followed by clean
termination — exactly as a non-numeric latitude, longitude or height
does. -/
theorem sez_parse_failure_same_message (argv : List String) (h7 : argv.length = 7)
    (h : pyFloat? (argv.getD 4 "") = none ∨ pyFloat? (argv.getD 5 "") = none ∨
      pyFloat? (argv.getD 6 "") = none) :
    runScript argv = ScriptOut.exitWithMessage
      "Error: lat_deg, long_deg and hae_km must be numeric." := by
  have hp := parseArgs_eq_none argv (Or.inr (Or.inr (Or.inr h)))
  simp [runScript, h7, hp, parseErrorLine]

/-- Witness for C9: a non-numeric `s_km` (fourth) argument. -/
theorem sez_parse_failure_same_message_witness :
    runScript ["sez_to_ecef.py", "0", "0", "0", "xyz", "0", "0"] =
      ScriptOut.exitWithMessage
        "Error: lat_deg, long_deg and hae_km must be numeric." :=
  sez_parse_failure_same_message _ (by decide) (Or.inl rfl)

/-- C10: Python's `float()` accepts the strings `nan`, `inf` and `-inf`,
so there are six-argument invocations that pass the parse step yet carry
non-finite values; on such an input the numeric pipeline runs to
completion and the script prints non-finite (NaN) components. -/
theorem nonfinite_inputs_accepted :
    pyFloat? "nan" = some PyF.nan ∧
    pyFloat? "inf" = some PyF.inf ∧
    pyFloat? "-inf" = some PyF.ninf ∧
    runScript ["sez_to_ecef.py", "nan", "0", "0", "0", "0", "0"] =
      ScriptOut.results PyF.nan PyF.nan PyF.nan ∧
    PyF.isFinite PyF.nan = false :=
  ⟨rfl, rfl, rfl, rfl, rfl⟩

end SezToEcef

end
